import Mathlib

set_option maxRecDepth 8192

/-!
Shallow embedding of the competitive-programming-assistant MCP server
(source files: tools/codeforces_tools.py, tools/graphing_tools.py,
tools/leetcode_tools.py, mcp_instance.py).

Conventions of the embedding:
* Upstream HTTP fetches (the api_clients package is not part of the
  sources; only its call sites are) are modelled as inputs of type
  Except String A: .error e is a raised exception whose str(e) is e,
  .ok v a successful JSON payload already decoded into a record.
* Each tool body is a pure function from those fetch results to the
  tool outcome.  Raising McpError(ErrorData(code=c, message=m)) is the
  outcome ToolOutcome.err c m; returning a string s is ToolOutcome.ok s;
  returning an image response is ToolOutcome.image s (the matplotlib
  rendering and its base64 encoding are abstracted away).
* Python str.strip is modelled by pyStrip, str.lower by pyLower,
  str(n) of an integer by
  toString, and datetime.fromtimestamp(..).strftime(..) (a timezone
  dependent conversion) by an explicit formatter parameter.
* Python dict .get with a missing key is modelled by Option fields.
-/

/-- A Codeforces problem record as returned by the upstream API.
The rating field is optional: unrated problems lack the rating key. -/
structure Problem where
  contestId : Int
  index : String
  name : String
  rating : Option Int
deriving DecidableEq

/-- A submission record.  The verdict is read with sub.get so it is
optional; an accepted submission has verdict some "OK". -/
structure Submission where
  problem : Problem
  verdict : Option String
  creationTimeSeconds : Int
deriving DecidableEq

/-- A user record from user.info.  rating, maxRating, rank and
registrationTimeSeconds are read with .get and may be absent. -/
structure User where
  handle : String
  rating : Option Int
  maxRating : Option Int
  rank : Option String
  registrationTimeSeconds : Option Int
deriving DecidableEq

/-- A rating change record from user.rating. -/
structure RatingChange where
  contestId : Int
  contestName : String
  rank : Int
  oldRating : Int
  newRating : Int
  ratingUpdateTimeSeconds : Int
deriving DecidableEq

/-- The problemset.problems payload (problemset_data.get("problems", [])). -/
structure Problemset where
  problems : List Problem
deriving DecidableEq

/-- Outcome of one tool call: a plain text result, an image response
(text part only; the rendered image is abstracted), or a raised
McpError carrying an HTTP-like status code and a message. -/
inductive ToolOutcome where
  | ok (text : String)
  | image (text : String)
  | err (code : Int) (message : String)
deriving DecidableEq

/-- True exactly on the McpError outcome. -/
def ToolOutcome.isErr : ToolOutcome → Bool
  | .err _ _ => true
  | _ => false

/-- Problem key used by recommend_problems, line 87:
f"{contestId}{index}" (no separator). -/
def recProblemKey (p : Problem) : String :=
  toString p.contestId ++ p.index

/-- Problem key used by get_solved_problems (line 126),
get_solved_rating_histogram (line 201) and
plot_solved_rating_distribution (line 167): f"{contestId}-{index}". -/
def dashProblemKey (p : Problem) : String :=
  toString p.contestId ++ "-" ++ p.index

/-- Adding one element to a Python set: a no-op when already present. -/
def pySetInsert (s : List String) (k : String) : List String :=
  if k ∈ s then s else s ++ [k]

/-- The solved-set of recommend_problems, line 87: the set of keys of
problems with an accepted (verdict OK) submission. -/
def solved_ids (subs : List Submission) : List String :=
  subs.foldl
    (fun acc s =>
      if s.verdict = some "OK" then pySetInsert acc (recProblemKey s.problem) else acc)
    []

/-- Python sorted(submissions, key=creationTimeSeconds, reverse=True):
a stable descending sort, get_solved_problems line 123. -/
def sortSubsByTimeDesc (subs : List Submission) : List Submission :=
  subs.mergeSort (fun a b => decide (b.creationTimeSeconds ≤ a.creationTimeSeconds))

/-- The dedup loop of get_solved_problems, lines 121-129: keep the first
accepted submission of each problem id, in list order. -/
def solvedDedupLoop : List Submission → List String → List Submission
  | [], _ => []
  | s :: rest, seen =>
    if s.verdict = some "OK" then
      if dashProblemKey s.problem ∈ seen then solvedDedupLoop rest seen
      else s :: solvedDedupLoop rest (dashProblemKey s.problem :: seen)
    else solvedDedupLoop rest seen

/-- solved_submissions of get_solved_problems: dedup over the
time-sorted submission list. -/
def solved_submissions (subs : List Submission) : List Submission :=
  solvedDedupLoop (sortSubsByTimeDesc subs) []

/-- An access token as built by SimpleJWTAuthProvider.load_access_token. -/
structure AccessToken where
  token : String
  client_id : String
  scopes : List String
deriving DecidableEq

/-- mcp_instance.py lines 15-16: grant an access token exactly when the
presented bearer token equals the configured AUTH_TOKEN string. -/
def load_access_token (authToken presented : String) : Option AccessToken :=
  if presented = authToken then
    some { token := presented, client_id := "puch-client", scopes := ["*"] }
  else
    none

-- ### Lemmas about the solved-set constructions

theorem mem_pySetInsert (s : List String) (k a : String) :
    a ∈ pySetInsert s k ↔ a ∈ s ∨ a = k := by
  unfold pySetInsert
  by_cases h : k ∈ s
  · simp only [if_pos h]
    constructor
    · exact Or.inl
    · rintro (ha | rfl)
      · exact ha
      · exact h
  · simp [if_neg h, List.mem_append]

theorem nodup_pySetInsert (s : List String) (k : String) (h : s.Nodup) :
    (pySetInsert s k).Nodup := by
  unfold pySetInsert
  by_cases hk : k ∈ s
  · simpa [if_pos hk] using h
  · rw [if_neg hk]
    refine List.Nodup.append h (List.nodup_singleton k) ?_
    intro a ha hb
    simp only [List.mem_singleton] at hb
    subst hb
    exact hk ha

theorem solved_ids_aux_nodup (subs : List Submission) :
    ∀ acc : List String, acc.Nodup →
      (subs.foldl
        (fun acc s =>
          if s.verdict = some "OK" then pySetInsert acc (recProblemKey s.problem) else acc)
        acc).Nodup := by
  induction subs with
  | nil => intro acc h; simpa using h
  | cons s rest ih =>
    intro acc h
    simp only [List.foldl_cons]
    by_cases hv : s.verdict = some "OK"
    · rw [if_pos hv]; exact ih _ (nodup_pySetInsert _ _ h)
    · rw [if_neg hv]; exact ih _ h

theorem mem_solved_ids_aux (subs : List Submission) :
    ∀ (acc : List String) (k : String),
      k ∈ subs.foldl
        (fun acc s =>
          if s.verdict = some "OK" then pySetInsert acc (recProblemKey s.problem) else acc)
        acc
      ↔ k ∈ acc ∨ ∃ s, s ∈ subs ∧ s.verdict = some "OK" ∧ recProblemKey s.problem = k := by
  induction subs with
  | nil => intro acc k; simp
  | cons s rest ih =>
    intro acc k
    simp only [List.foldl_cons]
    by_cases hv : s.verdict = some "OK"
    · rw [if_pos hv, ih, mem_pySetInsert]
      constructor
      · rintro ((ha | rfl) | ⟨t, ht, hvt, hk⟩)
        · exact Or.inl ha
        · exact Or.inr ⟨s, List.mem_cons_self s rest, hv, rfl⟩
        · exact Or.inr ⟨t, List.mem_cons_of_mem s ht, hvt, hk⟩
      · rintro (ha | ⟨t, ht, hvt, hk⟩)
        · exact Or.inl (Or.inl ha)
        · rcases List.mem_cons.mp ht with rfl | ht2
          · exact Or.inl (Or.inr hk.symm)
          · exact Or.inr ⟨t, ht2, hvt, hk⟩
    · rw [if_neg hv, ih]
      constructor
      · rintro (ha | ⟨t, ht, hvt, hk⟩)
        · exact Or.inl ha
        · exact Or.inr ⟨t, List.mem_cons_of_mem s ht, hvt, hk⟩
      · rintro (ha | ⟨t, ht, hvt, hk⟩)
        · exact Or.inl ha
        · rcases List.mem_cons.mp ht with rfl | ht2
          · exact absurd hvt hv
          · exact Or.inr ⟨t, ht2, hvt, hk⟩

theorem mem_map_key_solvedDedupLoop (l : List Submission) :
    ∀ (seen : List String) (k : String),
      k ∈ (solvedDedupLoop l seen).map (fun s => dashProblemKey s.problem)
      ↔ (∃ s, s ∈ l ∧ s.verdict = some "OK" ∧ dashProblemKey s.problem = k) ∧ k ∉ seen := by
  induction l with
  | nil => intro seen k; simp [solvedDedupLoop]
  | cons s rest ih =>
    intro seen k
    unfold solvedDedupLoop
    by_cases hv : s.verdict = some "OK"
    · rw [if_pos hv]
      by_cases hs : dashProblemKey s.problem ∈ seen
      · rw [if_pos hs, ih]
        constructor
        · rintro ⟨⟨t, ht, hvt, hk⟩, hns⟩
          exact ⟨⟨t, List.mem_cons_of_mem _ ht, hvt, hk⟩, hns⟩
        · rintro ⟨⟨t, ht, hvt, hk⟩, hns⟩
          rcases List.mem_cons.mp ht with rfl | ht2
          · exact absurd (hk ▸ hs) hns
          · exact ⟨⟨t, ht2, hvt, hk⟩, hns⟩
      · rw [if_neg hs]
        rw [List.map_cons, List.mem_cons, ih]
        constructor
        · rintro (rfl | ⟨⟨t, ht, hvt, hk⟩, hns⟩)
          · exact ⟨⟨s, List.mem_cons_self s rest, hv, rfl⟩, hs⟩
          · have hks : k ∉ seen := fun hk2 => hns (List.mem_cons_of_mem _ hk2)
            exact ⟨⟨t, List.mem_cons_of_mem s ht, hvt, hk⟩, hks⟩
        · rintro ⟨⟨t, ht, hvt, hk⟩, hns⟩
          rcases List.mem_cons.mp ht with rfl | ht2
          · exact Or.inl hk.symm
          · by_cases hkey : k = dashProblemKey s.problem
            · exact Or.inl hkey
            · refine Or.inr ⟨⟨t, ht2, hvt, hk⟩, ?_⟩
              intro hmem
              rcases List.mem_cons.mp hmem with h1 | h2
              · exact hkey h1
              · exact hns h2
    · rw [if_neg hv, ih]
      constructor
      · rintro ⟨⟨t, ht, hvt, hk⟩, hns⟩
        exact ⟨⟨t, List.mem_cons_of_mem _ ht, hvt, hk⟩, hns⟩
      · rintro ⟨⟨t, ht, hvt, hk⟩, hns⟩
        rcases List.mem_cons.mp ht with rfl | ht2
        · exact absurd hvt hv
        · exact ⟨⟨t, ht2, hvt, hk⟩, hns⟩

theorem nodup_map_key_solvedDedupLoop (l : List Submission) :
    ∀ seen : List String,
      ((solvedDedupLoop l seen).map (fun s => dashProblemKey s.problem)).Nodup := by
  induction l with
  | nil => intro seen; simp [solvedDedupLoop]
  | cons s rest ih =>
    intro seen
    unfold solvedDedupLoop
    by_cases hv : s.verdict = some "OK"
    · rw [if_pos hv]
      by_cases hs : dashProblemKey s.problem ∈ seen
      · rw [if_pos hs]; exact ih seen
      · rw [if_neg hs]
        simp only [List.map_cons, List.nodup_cons]
        refine ⟨?_, ih _⟩
        intro hmem
        have := (mem_map_key_solvedDedupLoop rest _ _).mp hmem
        exact this.2 (List.mem_cons_self _ _)
    · rw [if_neg hv]; exact ih seen

theorem all_ok_solvedDedupLoop (l : List Submission) :
    ∀ seen : List String,
      (solvedDedupLoop l seen).all (fun s => s.verdict == some "OK") = true := by
  induction l with
  | nil => intro seen; simp [solvedDedupLoop]
  | cons s rest ih =>
    intro seen
    unfold solvedDedupLoop
    by_cases hv : s.verdict = some "OK"
    · rw [if_pos hv]
      by_cases hs : dashProblemKey s.problem ∈ seen
      · rw [if_pos hs]; exact ih seen
      · rw [if_neg hs]
        simp only [List.all_cons, Bool.and_eq_true, beq_iff_eq]
        exact ⟨hv, ih _⟩
    · rw [if_neg hv]; exact ih seen

/-- Claim C1: the solved-sets computed by recommend_problems (solved_ids)
and by get_solved_problems (solved_submissions) contain each problem id
at most once, even when the submission list holds duplicate accepted
submissions of the same problem, and submissions whose verdict is not
OK contribute nothing: a key is in the solved-set exactly when some
accepted submission has it. -/
theorem solved_set_dedup_and_ok_only (subs : List Submission) :
    (solved_ids subs).Nodup
    ∧ (∀ k, k ∈ solved_ids subs
        ↔ ∃ s, s ∈ subs ∧ s.verdict = some "OK" ∧ recProblemKey s.problem = k)
    ∧ ((solved_submissions subs).map (fun s => dashProblemKey s.problem)).Nodup
    ∧ (∀ k, k ∈ (solved_submissions subs).map (fun s => dashProblemKey s.problem)
        ↔ ∃ s, s ∈ subs ∧ s.verdict = some "OK" ∧ dashProblemKey s.problem = k)
    ∧ (solved_submissions subs).all (fun s => s.verdict == some "OK") = true := by
  refine ⟨solved_ids_aux_nodup subs [] List.nodup_nil, ?_, ?_, ?_, ?_⟩
  · intro k
    have := mem_solved_ids_aux subs [] k
    simpa [solved_ids] using this
  · exact nodup_map_key_solvedDedupLoop _ []
  · intro k
    have h := mem_map_key_solvedDedupLoop (sortSubsByTimeDesc subs) [] k
    have hperm : ∀ s : Submission, s ∈ sortSubsByTimeDesc subs ↔ s ∈ subs := by
      intro s
      exact (List.mergeSort_perm subs _).mem_iff
    simp only [List.not_mem_nil, not_false_iff, and_true] at h
    rw [solved_submissions, h]
    constructor
    · rintro ⟨t, ht, hvt, hk⟩
      exact ⟨t, (hperm t).mp ht, hvt, hk⟩
    · rintro ⟨t, ht, hvt, hk⟩
      exact ⟨t, (hperm t).mpr ht, hvt, hk⟩
  · exact all_ok_solvedDedupLoop _ []

/-- Claim C6: authentication is a static token equality check:
load_access_token grants an access token exactly when the presented
bearer token equals the configured AUTH_TOKEN string, and the granted
token is the fixed record with client puch-client and scopes ["*"]. -/
theorem load_access_token_iff_token_matches (authToken presented : String) :
    (load_access_token authToken presented).isSome ↔ presented = authToken := by
  unfold load_access_token
  by_cases h : presented = authToken
  · simp [h]
  · simp [h]

-- ### get_codeforces_user_stats: sorting (codeforces_tools.py line 36)

/-- users_info.sort(key=lambda u: u.get("rating", 0), reverse=True):
a stable sort, descending on the rating field with default 0. -/
def users_info_sorted (users : List User) : List User :=
  users.mergeSort (fun a b => decide ((b.rating.getD 0 : Int) ≤ a.rating.getD 0))

/-- Claim C10: get_codeforces_user_stats lists the found users in
non-increasing order of their rating field, a user with no rating
ordered as if the rating were 0; the listing is a permutation of the
fetched users. -/
theorem user_stats_sorted_by_rating_desc (users : List User) :
    List.Sorted (fun a b : User => (b.rating.getD 0 : Int) ≤ a.rating.getD 0)
      (users_info_sorted users)
    ∧ (users_info_sorted users).Perm users := by
  constructor
  · have htrans : ∀ a b c : User,
        (decide ((b.rating.getD 0 : Int) ≤ a.rating.getD 0)) = true →
        (decide ((c.rating.getD 0 : Int) ≤ b.rating.getD 0)) = true →
        (decide ((c.rating.getD 0 : Int) ≤ a.rating.getD 0)) = true := by
      intro a b c hab hbc
      simp only [decide_eq_true_eq] at hab hbc ⊢
      exact le_trans hbc hab
    have htot : ∀ a b : User,
        ((decide ((b.rating.getD 0 : Int) ≤ a.rating.getD 0))
          || (decide ((a.rating.getD 0 : Int) ≤ b.rating.getD 0))) = true := by
      intro a b
      simp only [Bool.or_eq_true, decide_eq_true_eq]
      exact le_total _ _
    have h := List.sorted_mergeSort htrans htot users
    exact h.imp fun hab => of_decide_eq_true hab
  · exact List.mergeSort_perm users _

-- ### get_solved_rating_histogram (codeforces_tools.py lines 195-218)

/-- One defaultdict(int) increment: problem_ratings[bin] += 1. -/
def incrBin : List (Int × Nat) → Int → List (Int × Nat)
  | [], b => [(b, 1)]
  | (k, v) :: rest, b => if k = b then (k, v + 1) :: rest else (k, v) :: incrBin rest b

/-- Lookup of one bin count (0 when the bin is absent). -/
def countOf : List (Int × Nat) → Int → Nat
  | [], _ => 0
  | (k, v) :: rest, b => if k = b then v else countOf rest b

/-- Sum of all per-bin counts. -/
def sumCounts (bins : List (Int × Nat)) : Nat :=
  (bins.map Prod.snd).sum

/-- The histogram loop, lines 198-205: for each submission with verdict
OK whose problem carries a rating and was not seen before, increment the
bin (rating // bin_size) * bin_size (Python floor division). -/
def histLoop (binSize : Int) :
    List Submission → List String → List (Int × Nat) → List (Int × Nat)
  | [], _, bins => bins
  | s :: rest, seen, bins =>
    if s.verdict = some "OK" then
      match s.problem.rating with
      | some r =>
        if dashProblemKey s.problem ∈ seen then histLoop binSize rest seen bins
        else histLoop binSize rest (dashProblemKey s.problem :: seen)
          (incrBin bins (Int.fdiv r binSize * binSize))
      | none => histLoop binSize rest seen bins
    else histLoop binSize rest seen bins

/-- problem_ratings of get_solved_rating_histogram. -/
def problem_ratings (binSize : Int) (subs : List Submission) : List (Int × Nat) :=
  histLoop binSize subs [] []

/-- Keys of submissions that are accepted and rated (one entry per
submission; duplicates possible). -/
def solvedRatedKeys (subs : List Submission) : List String :=
  (subs.filter (fun s => decide (s.verdict = some "OK") && s.problem.rating.isSome)).map
    (fun s => dashProblemKey s.problem)

/-- The distinct problem ids having an accepted, rated submission. -/
def solvedRatedSet (subs : List Submission) : Finset String :=
  (solvedRatedKeys subs).toFinset

/-- The (key, rating) pairs the histogram loop counts, in the order it
first meets them, skipping keys already seen. -/
def newRatedPairs : List Submission → List String → List (String × Int)
  | [], _ => []
  | s :: rest, seen =>
    if s.verdict = some "OK" then
      match s.problem.rating with
      | some r =>
        if dashProblemKey s.problem ∈ seen then newRatedPairs rest seen
        else (dashProblemKey s.problem, r) :: newRatedPairs rest (dashProblemKey s.problem :: seen)
      | none => newRatedPairs rest seen
    else newRatedPairs rest seen

theorem countOf_incrBin (bins : List (Int × Nat)) (b c : Int) :
    countOf (incrBin bins b) c = countOf bins c + (if b = c then 1 else 0) := by
  induction bins with
  | nil =>
    by_cases h : b = c <;> simp [incrBin, countOf, h]
  | cons kv rest ih =>
    obtain ⟨k, v⟩ := kv
    by_cases hk : k = b
    · subst hk
      by_cases hc : k = c
      · subst hc
        simp [incrBin, countOf]
      · simp [incrBin, countOf, hc]
    · by_cases hc : k = c
      · subst hc
        have hbc : ¬b = k := fun h => hk h.symm
        simp [incrBin, countOf, hk, hbc]
      · simp [incrBin, countOf, hk, hc, ih]

theorem sumCounts_incrBin (bins : List (Int × Nat)) (b : Int) :
    sumCounts (incrBin bins b) = sumCounts bins + 1 := by
  induction bins with
  | nil => simp [incrBin, sumCounts]
  | cons kv rest ih =>
    obtain ⟨k, v⟩ := kv
    by_cases hk : k = b
    · simp [incrBin, sumCounts, hk]
      omega
    · simp only [incrBin, if_neg hk]
      simp only [sumCounts, List.map_cons, List.sum_cons] at ih ⊢
      omega

theorem histLoop_countOf (binSize : Int) (subs : List Submission) :
    ∀ (seen : List String) (bins : List (Int × Nat)) (c : Int),
      countOf (histLoop binSize subs seen bins) c
      = countOf bins c
        + (newRatedPairs subs seen).countP
            (fun kr => decide (Int.fdiv kr.2 binSize * binSize = c)) := by
  induction subs with
  | nil => intro seen bins c; simp [histLoop, newRatedPairs]
  | cons s rest ih =>
    intro seen bins c
    unfold histLoop newRatedPairs
    by_cases hv : s.verdict = some "OK"
    · rw [if_pos hv, if_pos hv]
      cases hr : s.problem.rating with
      | none => exact ih seen bins c
      | some r =>
        dsimp only
        by_cases hs : dashProblemKey s.problem ∈ seen
        · rw [if_pos hs, if_pos hs]
          exact ih seen bins c
        · rw [if_neg hs, if_neg hs]
          rw [ih, countOf_incrBin, List.countP_cons]
          simp only [decide_eq_true_eq]
          omega
    · rw [if_neg hv, if_neg hv]
      exact ih seen bins c

theorem histLoop_sum (binSize : Int) (subs : List Submission) :
    ∀ (seen : List String) (bins : List (Int × Nat)),
      sumCounts (histLoop binSize subs seen bins)
      = sumCounts bins + (newRatedPairs subs seen).length := by
  induction subs with
  | nil => intro seen bins; simp [histLoop, newRatedPairs]
  | cons s rest ih =>
    intro seen bins
    unfold histLoop newRatedPairs
    by_cases hv : s.verdict = some "OK"
    · rw [if_pos hv, if_pos hv]
      cases hr : s.problem.rating with
      | none => exact ih seen bins
      | some r =>
        dsimp only
        by_cases hs : dashProblemKey s.problem ∈ seen
        · rw [if_pos hs, if_pos hs]
          exact ih seen bins
        · rw [if_neg hs, if_neg hs]
          rw [ih, sumCounts_incrBin, List.length_cons]
          omega
    · rw [if_neg hv, if_neg hv]
      exact ih seen bins

theorem mem_newRatedPairs (subs : List Submission) :
    ∀ (seen : List String) (k : String) (r : Int),
      (k, r) ∈ newRatedPairs subs seen →
      ∃ s, s ∈ subs ∧ s.verdict = some "OK" ∧ s.problem.rating = some r
        ∧ dashProblemKey s.problem = k := by
  induction subs with
  | nil => intro seen k r h; simp [newRatedPairs] at h
  | cons s rest ih =>
    intro seen k r h
    unfold newRatedPairs at h
    by_cases hv : s.verdict = some "OK"
    · rw [if_pos hv] at h
      cases hr : s.problem.rating with
      | none =>
        rw [hr] at h
        obtain ⟨t, ht, h1, h2, h3⟩ := ih seen k r h
        exact ⟨t, List.mem_cons_of_mem s ht, h1, h2, h3⟩
      | some r2 =>
        rw [hr] at h
        dsimp only at h
        by_cases hs : dashProblemKey s.problem ∈ seen
        · rw [if_pos hs] at h
          obtain ⟨t, ht, h1, h2, h3⟩ := ih seen k r h
          exact ⟨t, List.mem_cons_of_mem s ht, h1, h2, h3⟩
        · rw [if_neg hs] at h
          rcases List.mem_cons.mp h with heq | h2
          · have hk : k = dashProblemKey s.problem := congrArg Prod.fst heq
            have hrr : r = r2 := congrArg Prod.snd heq
            refine ⟨s, List.mem_cons_self s rest, hv, ?_, hk.symm⟩
            rw [hr, hrr]
          · obtain ⟨t, ht, h1, h2, h3⟩ := ih _ k r h2
            exact ⟨t, List.mem_cons_of_mem s ht, h1, h2, h3⟩
    · rw [if_neg hv] at h
      obtain ⟨t, ht, h1, h2, h3⟩ := ih seen k r h
      exact ⟨t, List.mem_cons_of_mem s ht, h1, h2, h3⟩

theorem solvedRatedKeys_cons (s : Submission) (rest : List Submission) :
    solvedRatedKeys (s :: rest)
    = if s.verdict = some "OK" ∧ s.problem.rating.isSome
      then dashProblemKey s.problem :: solvedRatedKeys rest
      else solvedRatedKeys rest := by
  unfold solvedRatedKeys
  rw [List.filter_cons]
  by_cases h1 : s.verdict = some "OK"
  · by_cases h2 : s.problem.rating.isSome
    · simp [h1, h2]
    · simp [h1, h2]
  · simp [h1]

theorem mem_fst_newRatedPairs (subs : List Submission) :
    ∀ (seen : List String) (k : String),
      k ∈ (newRatedPairs subs seen).map Prod.fst
      ↔ k ∈ solvedRatedKeys subs ∧ k ∉ seen := by
  induction subs with
  | nil => intro seen k; simp [newRatedPairs, solvedRatedKeys]
  | cons s rest ih =>
    intro seen k
    rw [solvedRatedKeys_cons]
    unfold newRatedPairs
    by_cases hv : s.verdict = some "OK"
    · rw [if_pos hv]
      cases hr : s.problem.rating with
      | none =>
        dsimp only
        rw [ih]
        simp
      | some r =>
        dsimp only
        have hcond : s.verdict = some "OK" ∧ (some r : Option Int).isSome = true := ⟨hv, rfl⟩
        rw [if_pos hcond]
        by_cases hs : dashProblemKey s.problem ∈ seen
        · rw [if_pos hs, ih]
          constructor
          · rintro ⟨hk1, hk2⟩
            exact ⟨List.mem_cons_of_mem _ hk1, hk2⟩
          · rintro ⟨hk1, hk2⟩
            rcases List.mem_cons.mp hk1 with rfl | h2
            · exact absurd hs hk2
            · exact ⟨h2, hk2⟩
        · rw [if_neg hs]
          rw [List.map_cons, List.mem_cons, ih]
          constructor
          · rintro (rfl | ⟨hk1, hk2⟩)
            · exact ⟨List.mem_cons_self _ _, hs⟩
            · exact ⟨List.mem_cons_of_mem _ hk1,
                fun hmem => hk2 (List.mem_cons_of_mem _ hmem)⟩
          · rintro ⟨hk1, hk2⟩
            rcases List.mem_cons.mp hk1 with rfl | h2
            · exact Or.inl rfl
            · by_cases hkey : k = dashProblemKey s.problem
              · exact Or.inl hkey
              · refine Or.inr ⟨h2, ?_⟩
                intro hmem
                rcases List.mem_cons.mp hmem with ha | hb
                · exact hkey ha
                · exact hk2 hb
    · rw [if_neg hv, ih]
      have hnot : ¬(s.verdict = some "OK" ∧ s.problem.rating.isSome) := fun h => hv h.1
      rw [if_neg hnot]

theorem nodup_fst_newRatedPairs (subs : List Submission) :
    ∀ seen : List String, ((newRatedPairs subs seen).map Prod.fst).Nodup := by
  induction subs with
  | nil => intro seen; simp [newRatedPairs]
  | cons s rest ih =>
    intro seen
    unfold newRatedPairs
    by_cases hv : s.verdict = some "OK"
    · rw [if_pos hv]
      cases hr : s.problem.rating with
      | none => exact ih seen
      | some r =>
        dsimp only
        by_cases hs : dashProblemKey s.problem ∈ seen
        · rw [if_pos hs]; exact ih seen
        · rw [if_neg hs]
          rw [List.map_cons, List.nodup_cons]
          refine ⟨?_, ih _⟩
          intro hmem
          have h := (mem_fst_newRatedPairs rest _ _).mp hmem
          exact h.2 (List.mem_cons_self _ _)
    · rw [if_neg hv]; exact ih seen

theorem countP_pairs_ratingOf (binSize c : Int) (subs : List Submission)
    (ratingOf : String → Int)
    (hcons : ∀ s, s ∈ subs → s.verdict = some "OK" → s.problem.rating.isSome →
      s.problem.rating = some (ratingOf (dashProblemKey s.problem))) :
    (newRatedPairs subs []).countP (fun kr => decide (Int.fdiv kr.2 binSize * binSize = c))
    = (newRatedPairs subs []).countP
        (fun kr => decide (Int.fdiv (ratingOf kr.1) binSize * binSize = c)) := by
  apply List.countP_congr
  intro kr hkr
  obtain ⟨t, ht, h1, h2, h3⟩ := mem_newRatedPairs subs [] kr.1 kr.2 (by simpa using hkr)
  have hsome : t.problem.rating.isSome := by rw [h2]; rfl
  have h4 := hcons t ht h1 hsome
  rw [h2, h3] at h4
  have h5 : kr.2 = ratingOf kr.1 := Option.some.inj h4
  rw [h5]

/-- For a duplicate-free list, the size of the filtered finset equals the
count of matching list entries. -/
theorem card_filter_toFinset_of_nodup {α : Type} [DecidableEq α] {l : List α}
    (hnd : l.Nodup) (P : α → Prop) [DecidablePred P] :
    (l.toFinset.filter P).card = l.countP (fun x => decide (P x)) := by
  rw [List.countP_eq_length_filter]
  have hfil : (l.filter (fun x => decide (P x))).Nodup := hnd.filter _
  rw [← List.toFinset_card_of_nodup hfil, List.toFinset_filter]
  congr 1
  apply Finset.filter_congr
  intro x _
  simp

/-- Claim C2: for every submission list and bin size, the per-bin counts
of get_solved_rating_histogram sum to the number of distinct problem ids
having an accepted, rated submission, and the count of each bin b equals
the number of such distinct problems whose rating falls in the bin
(rating // bin_size) * bin_size = b.  The hypothesis says ratings are
consistent: every accepted rated submission of a problem id carries the
rating ratingOf assigns to that id. -/
theorem histogram_counts_distinct_rated_solves (binSize : Int) (subs : List Submission)
    (ratingOf : String → Int) (b : Int)
    (hcons : ∀ s, s ∈ subs → s.verdict = some "OK" → s.problem.rating.isSome →
      s.problem.rating = some (ratingOf (dashProblemKey s.problem))) :
    sumCounts (problem_ratings binSize subs) = (solvedRatedSet subs).card
    ∧ countOf (problem_ratings binSize subs) b
        = ((solvedRatedSet subs).filter
            (fun k => Int.fdiv (ratingOf k) binSize * binSize = b)).card := by
  have hnd := nodup_fst_newRatedPairs subs []
  have hmem : ∀ k, k ∈ (newRatedPairs subs []).map Prod.fst ↔ k ∈ solvedRatedKeys subs := by
    intro k
    rw [mem_fst_newRatedPairs]
    simp
  have htofin : ((newRatedPairs subs []).map Prod.fst).toFinset = solvedRatedSet subs := by
    apply Finset.ext
    intro k
    rw [List.mem_toFinset, hmem, solvedRatedSet, List.mem_toFinset]
  constructor
  · rw [problem_ratings, histLoop_sum]
    have h1 : sumCounts ([] : List (Int × Nat)) = 0 := rfl
    rw [h1, Nat.zero_add, ← htofin, List.toFinset_card_of_nodup hnd, List.length_map]
  · rw [problem_ratings, histLoop_countOf]
    have h1 : countOf ([] : List (Int × Nat)) b = 0 := rfl
    rw [h1, Nat.zero_add, countP_pairs_ratingOf binSize b subs ratingOf hcons, ← htofin,
      card_filter_toFinset_of_nodup hnd, List.countP_map]
    rfl

/-- A five-submission example: problem 1-A accepted twice (rating 1500),
1-B accepted once (rating 1550), 2-A rated but rejected, 2-B accepted
but unrated. -/
def subsW : List Submission :=
  [ { problem := { contestId := 1, index := "A", name := "P1", rating := some 1500 },
      verdict := some "OK", creationTimeSeconds := 10 },
    { problem := { contestId := 1, index := "A", name := "P1", rating := some 1500 },
      verdict := some "OK", creationTimeSeconds := 20 },
    { problem := { contestId := 1, index := "B", name := "P2", rating := some 1550 },
      verdict := some "OK", creationTimeSeconds := 30 },
    { problem := { contestId := 2, index := "A", name := "P3", rating := some 800 },
      verdict := some "WRONG_ANSWER", creationTimeSeconds := 40 },
    { problem := { contestId := 2, index := "B", name := "P4", rating := none },
      verdict := some "OK", creationTimeSeconds := 50 } ]

/-- Rating table matching subsW. -/
def ratingOfW : String → Int :=
  fun k => if k = "1-A" then 1500 else if k = "1-B" then 1550 else 0

/-- Witness for claim C2: on subsW with bin size 100 the histogram counts
sum to 2 (the two distinct rated accepted problems) and bin 1500 holds
both of them. -/
theorem histogram_counts_distinct_rated_solves_witness :
    sumCounts (problem_ratings 100 subsW) = 2
    ∧ countOf (problem_ratings 100 subsW) 1500 = 2 := by
  have h := histogram_counts_distinct_rated_solves 100 subsW ratingOfW 1500 (by decide)
  exact ⟨h.1.trans (by decide), h.2.trans (by decide)⟩

-- ### Shared helpers for the tool bodies

/-- Python truthiness of an optional string (None and "" are falsy). -/
def optStrTruthy : Option String → Bool
  | some s => s != ""
  | none => false

/-- Python truthiness of an optional list (None and [] are falsy). -/
def optListTruthy : Option (List String) → Bool
  | some l => !l.isEmpty
  | none => false

/-- target_handle = handle or config.DEFAULT_HANDLE, followed by the
falsiness check; none models raising McpError 400. -/
def resolve_handle (defaultHandle : String) (handle : Option String) : Option String :=
  match handle with
  | some s =>
    if s != "" then some s
    else if defaultHandle != "" then some defaultHandle else none
  | none => if defaultHandle != "" then some defaultHandle else none

/-- Display of u.get(key, "N/A") when the value is an int. -/
def optIntDisplay (v : Option Int) (dflt : String) : String :=
  match v with
  | some n => toString n
  | none => dflt

/-- Python f-string rendering of an int-or-None value. -/
def pyFmtOptInt (v : Option Int) : String :=
  match v with
  | some n => toString n
  | none => "None"

/-- Python format spec {d:+}: always show the sign. -/
def pyPlusFmt (d : Int) : String :=
  if 0 ≤ d then "+" ++ toString d else toString d

/-- Python slice l[:count] for an int count: a nonnegative count keeps
the first count elements, a negative count drops the last abs(count). -/
def pySliceTo {α : Type} (count : Int) (l : List α) : List α :=
  if 0 ≤ count then l.take count.toNat else l.take (l.length - count.natAbs)

/-- Python str.strip(): drop whitespace at both ends (character level,
kernel computable). -/
def pyStrip (s : String) : String :=
  String.mk (((s.data.dropWhile Char.isWhitespace).reverse.dropWhile
    Char.isWhitespace).reverse)

/-- Python str.lower() for the ASCII handles involved (character
level, kernel computable). -/
def pyLower (s : String) : String :=
  String.mk (s.data.map Char.toLower)

/-- Concatenation of f(i, x) over a list with a running 1-based index,
as in Python enumerate(xs, 1). -/
def enumStrings {α : Type} (f : Nat → α → String) : Nat → List α → String
  | _, [] => ""
  | i, x :: xs => f i x ++ enumStrings f (i + 1) xs

-- ### get_codeforces_user_stats (codeforces_tools.py lines 24-51)

/-- target_handles = handles or [config.DEFAULT_HANDLE]. -/
def stats_target_handles (defaultHandle : String) (handles : Option (List String)) : List String :=
  match handles with
  | some (h :: t) => h :: t
  | _ => [defaultHandle]

/-- One dedented per-user block of the stats response (lines 42-48). -/
def user_stats_block (fmtMonthYear : Int → String) (u : User) : String :=
  "\n*" ++ u.rank.getD "Unrated" ++ " " ++ u.handle ++ "*\n"
  ++ "- Rating: *" ++ optIntDisplay u.rating "N/A" ++ "* (Max: "
  ++ optIntDisplay u.maxRating "N/A" ++ ")\n"
  ++ "- Member Since: " ++ fmtMonthYear (u.registrationTimeSeconds.getD 0) ++ "\n"
  ++ "- [Profile](https://codeforces.com/profile/" ++ u.handle ++ ")\n---\n"

/-- The whole tool.  fmtMonthYear abstracts
datetime.fromtimestamp(ts).strftime("%b %Y"). -/
def get_codeforces_user_stats_model (defaultHandle : String) (handles : Option (List String))
    (uiE : Except String (List User)) (fmtMonthYear : Int → String) : ToolOutcome :=
  let target := stats_target_handles defaultHandle handles
  if target.headD "" == "" then
    .err 400 "No handles provided, and no default handle is configured."
  else
    match uiE with
    | .error e => .err 500 ("Error fetching user stats: " ++ e)
    | .ok users =>
      if users = [] then
        .ok ("😕 Could not find user(s): " ++ String.intercalate ", " target)
      else
        .ok (pyStrip
          (("🏆 *Codeforces User " ++ (if 1 < target.length then "Leaderboard" else "Stats")
              ++ "*\n\n")
            ++ String.join ((users_info_sorted users).map (user_stats_block fmtMonthYear))))

-- ### get_rating_changes (codeforces_tools.py lines 153-175)

/-- sorted(changes, key=ratingUpdateTimeSeconds, reverse=True). -/
def sortChangesByTimeDesc (changes : List RatingChange) : List RatingChange :=
  changes.mergeSort (fun a b => decide (b.ratingUpdateTimeSeconds ≤ a.ratingUpdateTimeSeconds))

/-- The per-contest lines of the rating-change report (lines 167-172). -/
def rating_change_lines (changes : List RatingChange) : String :=
  String.join (changes.map (fun c =>
    let delta := c.newRating - c.oldRating
    let emoji := if 0 < delta then "🔼" else if delta < 0 then "🔽" else "➖"
    "- [" ++ c.contestName ++ "](https://codeforces.com/contest/" ++ toString c.contestId
      ++ ")\n  - Rank: " ++ toString c.rank ++ ", " ++ emoji ++ " " ++ toString c.oldRating
      ++ " -> **" ++ toString c.newRating ++ "** (" ++ pyPlusFmt delta ++ ")\n"))

def get_rating_changes_model (defaultHandle : String) (handle : Option String)
    (rcE : Except String (List RatingChange)) (count : Int) : ToolOutcome :=
  match resolve_handle defaultHandle handle with
  | none => .err 400 "Please specify a handle or set DEFAULT_HANDLE."
  | some target =>
    match rcE with
    | .error e => .err 500 ("Error fetching rating changes: " ++ e)
    | .ok changes =>
      if changes = [] then
        .ok ("😕 No rating changes found for *" ++ target ++ "*. They might be unrated.")
      else
        .ok ("📈 **Recent Rating Changes for " ++ target ++ "**\n\n"
          ++ rating_change_lines (pySliceTo count (sortChangesByTimeDesc changes)))

-- ### get_solved_problems (codeforces_tools.py lines 111-142)

/-- One line of the recent-solves report (lines 135-139).  fmtDate
abstracts datetime.fromtimestamp(ts).strftime("%Y-%m-%d"). -/
def solved_problem_line (fmtDate : Int → String) (i : Nat) (sub : Submission) : String :=
  toString i ++ ". [" ++ sub.problem.name ++ "](https://codeforces.com/problemset/problem/"
    ++ toString sub.problem.contestId ++ "/" ++ sub.problem.index ++ ") - **"
    ++ optIntDisplay sub.problem.rating "N/A" ++ "** (Solved on "
    ++ fmtDate sub.creationTimeSeconds ++ ")\n"

def get_solved_problems_model (defaultHandle : String) (handle : Option String)
    (stE : Except String (List Submission)) (count : Int)
    (fmtDate : Int → String) : ToolOutcome :=
  match resolve_handle defaultHandle handle with
  | none => .err 400 "Please specify a handle or set DEFAULT_HANDLE."
  | some target =>
    match stE with
    | .error e => .err 500 ("Error fetching solved problems: " ++ e)
    | .ok subs =>
      if solved_submissions subs = [] then
        .ok ("😕 No recent AC submissions found for *" ++ target ++ "*.")
      else
        .ok ("✅ **Recently Solved by " ++ target ++ "**\n\n"
          ++ enumStrings (solved_problem_line fmtDate) 1
              (pySliceTo count (solved_submissions subs)))

-- ### get_solved_rating_histogram, response text (lines 207-221)

/-- Python "{:4d}".format: right-align in a field of the given width. -/
def pyRightAlign (w : Nat) (s : String) : String :=
  String.mk (List.replicate (w - s.length) ' ') ++ s

/-- Python "{:<4}".format: left-align in a field of the given width. -/
def pyLeftAlign (w : Nat) (s : String) : String :=
  s ++ String.mk (List.replicate (w - s.length) ' ')

/-- max(problem_ratings.values()) with the empty guard of line 211. -/
def maxCounts (bins : List (Int × Nat)) : Nat :=
  (bins.map Prod.snd).foldl max 0

/-- One histogram bar line (lines 214-218).  barLen abstracts the
floating point computation int((count / max_count) * 40). -/
def histogram_line (binSize : Int) (barLen : Nat → Nat → Nat) (maxCount : Nat)
    (bins : List (Int × Nat)) (rating : Int) : String :=
  let count := countOf bins rating
  let bar := String.mk (List.replicate (barLen count maxCount) '█')
  pyRightAlign 4 (toString rating) ++ "-" ++ pyLeftAlign 4 (toString (rating + binSize - 1))
    ++ " | " ++ pyLeftAlign 40 bar ++ " (" ++ toString count ++ ")\n"

def get_solved_rating_histogram_model (defaultHandle : String) (handle : Option String)
    (stE : Except String (List Submission)) (binSize : Int)
    (barLen : Nat → Nat → Nat) : ToolOutcome :=
  match resolve_handle defaultHandle handle with
  | none => .err 400 "Please specify a handle or set DEFAULT_HANDLE."
  | some target =>
    match stE with
    | .error e => .err 500 ("Error generating histogram: " ++ e)
    | .ok subs =>
      let bins := problem_ratings binSize subs
      if bins = [] then
        .ok ("😕 No rated problems solved by *" ++ target ++ "*.")
      else
        .ok ("📊 **Solved Problems Histogram for " ++ target ++ "**\n\n```\n"
          ++ String.join
              (((bins.map Prod.fst).mergeSort (fun a b => decide (a ≤ b))).map
                (histogram_line binSize barLen (maxCounts bins) bins))
          ++ "```")

-- ### recommend_problems (codeforces_tools.py lines 62-100)

/-- str(e) of the TypeError raised by None <= int. -/
def cmpNoneLeftMsg : String :=
  "\x27<=\x27 not supported between instances of \x27NoneType\x27 and \x27int\x27"

/-- str(e) of the TypeError raised by int <= None. -/
def cmpNoneRightMsg : String :=
  "\x27<=\x27 not supported between instances of \x27int\x27 and \x27NoneType\x27"

/-- The candidate filter of line 88, with Python chained-comparison
semantics: the window test lo <= rating <= hi evaluates lo <= rating
first and raises TypeError when the operand reached is None; solved or
unrated problems short-circuit before the window test. -/
def candidatesE (solved : List String) (lo hi : Option Int) :
    List Problem → Except String (List Problem)
  | [] => .ok []
  | p :: ps =>
    if recProblemKey p ∈ solved then candidatesE solved lo hi ps
    else
      match p.rating with
      | none => candidatesE solved lo hi ps
      | some r =>
        match lo with
        | none => .error cmpNoneLeftMsg
        | some l =>
          if l ≤ r then
            match hi with
            | none => .error cmpNoneRightMsg
            | some h =>
              if r ≤ h then (candidatesE solved lo hi ps).map (fun cs => p :: cs)
              else candidatesE solved lo hi ps
          else candidatesE solved lo hi ps

/-- Structured result of the recommend_problems body before formatting. -/
inductive RecResult where
  | userNotFound
  | noCandidates (lo hi : Option Int)
  | recs (ps : List Problem) (lo hi : Option Int)
  | exc (message : String)
deriving DecidableEq

/-- True exactly on the exception result. -/
def RecResult.isExc : RecResult → Bool
  | .exc _ => true
  | _ => false

/-- The part of the recommend_problems body after the user lookup and
window defaulting: the gather of lines 82-85 (the first argument error
is the one propagated when both fail), the candidate filter, the
shuffle and the slice.  shuffle abstracts random.shuffle. -/
def recommend_after_user (shuffle : List Problem → List Problem)
    (stE : Except String (List Submission)) (psE : Except String Problemset)
    (lo hi : Option Int) (count : Int) : RecResult :=
  match stE, psE with
  | .error e, _ => .exc e
  | _, .error e => .exc e
  | .ok subs, .ok pset =>
    match candidatesE (solved_ids subs) lo hi pset.problems with
    | .error m => .exc m
    | .ok [] => .noCandidates lo hi
    | .ok (c :: cs) => .recs (pySliceTo count (shuffle (c :: cs))) lo hi

/-- The body of recommend_problems: fetch user info, default the window
to [user rating, user rating + 199] only when both bounds are None
(line 77), then recommend_after_user. -/
def recommend_core (shuffle : List Problem → List Problem)
    (uiE : Except String (List User)) (stE : Except String (List Submission))
    (psE : Except String Problemset) (minRating maxRating : Option Int)
    (count : Int) : RecResult :=
  match uiE with
  | .error e => .exc e
  | .ok [] => .userNotFound
  | .ok (u :: _) =>
    recommend_after_user shuffle stE psE
      (if minRating.isNone && maxRating.isNone then some (u.rating.getD 1200) else minRating)
      (if minRating.isNone && maxRating.isNone then some (u.rating.getD 1200 + 199)
        else maxRating)
      count

/-- One recommendation line (lines 95-97). -/
def recommend_line (i : Nat) (p : Problem) : String :=
  toString i ++ ". [" ++ p.name ++ "](https://codeforces.com/problemset/problem/"
    ++ toString p.contestId ++ "/" ++ p.index ++ ") - Rating: "
    ++ optIntDisplay p.rating "N/A" ++ "\n"

def recommend_problems_model (defaultHandle : String) (handle : Option String)
    (shuffle : List Problem → List Problem) (uiE : Except String (List User))
    (stE : Except String (List Submission)) (psE : Except String Problemset)
    (minRating maxRating : Option Int) (count : Int) : ToolOutcome :=
  match resolve_handle defaultHandle handle with
  | none => .err 400 "Please specify a handle or set DEFAULT_HANDLE."
  | some target =>
    match recommend_core shuffle uiE stE psE minRating maxRating count with
    | .exc m => .err 500 ("Error generating recommendations: " ++ m)
    | .userNotFound => .ok ("Could not find user \x27" ++ target ++ "\x27.")
    | .noCandidates lo hi =>
      .ok ("😕 Couldn\x27t find any suitable unsolved problems for *" ++ target
        ++ "* in rating range " ++ pyFmtOptInt lo ++ "-" ++ pyFmtOptInt hi ++ ".")
    | .recs ps lo hi =>
      .ok ("💡 **Recommended Problems for " ++ target ++ " (" ++ pyFmtOptInt lo ++ "-"
        ++ pyFmtOptInt hi ++ "):**\n\n" ++ enumStrings recommend_line 1 ps)

-- ### compare_codeforces_users (codeforces_tools.py lines 249-342)

/-- A metrics value that is either an int or the literal string "N/A". -/
inductive PyCount where
  | val (n : Nat)
  | na
deriving DecidableEq

def PyCount.display : PyCount → String
  | .val n => toString n
  | .na => "N/A"

/-- One entry of comparison_data (lines 279-303). -/
structure CompareMetrics where
  handle : String
  current_rating : Int
  max_rating : Int
  rank : String
  contests_count : PyCount
  recent_activity : PyCount
  registration_ts : Int
  last_rating_change : Option RatingChange
  error : Option String
deriving DecidableEq

/-- The N/A fallback metrics of lines 293-302 (the inner except). -/
def compare_na_metrics (user : User) : CompareMetrics :=
  { handle := user.handle
    current_rating := user.rating.getD 0
    max_rating := user.maxRating.getD 0
    rank := user.rank.getD "Unrated"
    contests_count := .na
    recent_activity := .na
    registration_ts := user.registrationTimeSeconds.getD 0
    last_rating_change := none
    error := some "Limited data due to API issues" }

/-- The per-user inner try of lines 273-303: when either detail fetch
raises, fall back to the N/A metrics. -/
def compare_user_metrics (rcF : String → Except String (List RatingChange))
    (stF : String → Except String (List Submission)) (user : User) : CompareMetrics :=
  match rcF user.handle, stF user.handle with
  | .ok rcs, .ok subs =>
    { handle := user.handle
      current_rating := user.rating.getD 0
      max_rating := user.maxRating.getD 0
      rank := user.rank.getD "Unrated"
      contests_count := .val rcs.length
      recent_activity := .val (subs.filter (fun s => decide (s.verdict = some "OK"))).length
      registration_ts := user.registrationTimeSeconds.getD 0
      last_rating_change := rcs.getLast?
      error := none }
  | _, _ => compare_na_metrics user

/-- comparison_data after the stable descending sort on current_rating
(line 306). -/
def compare_comparison_data (users : List User)
    (rcF : String → Except String (List RatingChange))
    (stF : String → Except String (List Submission)) : List CompareMetrics :=
  (users.map (compare_user_metrics rcF stF)).mergeSort
    (fun a b => decide (b.current_rating ≤ a.current_rating))

/-- Position emoji of line 312. -/
def position_emoji (i : Nat) : String :=
  if i = 1 then "🥇" else if i = 2 then "🥈" else if i = 3 then "🥉" else toString i ++ "."

/-- One user block of the comparison report (lines 311-324). -/
def compare_user_block (fmtMonthYear : Int → String) (i : Nat) (m : CompareMetrics) : String :=
  position_emoji i ++ " *" ++ m.rank ++ " " ++ m.handle ++ "*\n"
  ++ "   • Current Rating: *" ++ toString m.current_rating ++ "*\n"
  ++ "   • Peak Rating: *" ++ toString m.max_rating ++ "*\n"
  ++ "   • Contests Participated: " ++ m.contests_count.display ++ "\n"
  ++ "   • Recent AC Problems: " ++ m.recent_activity.display ++ "\n"
  ++ "   • Member Since: " ++ fmtMonthYear m.registration_ts ++ "\n"
  ++ (match m.error with | some e => "   • ⚠️ " ++ e ++ "\n" | none => "")
  ++ "\n"

/-- Python max(data, key=f): the first element attaining the maximum. -/
def pyMaxBy (key : CompareMetrics → Nat) : CompareMetrics → List CompareMetrics → CompareMetrics
  | best, [] => best
  | best, x :: xs => if key best < key x then pyMaxBy key x xs else pyMaxBy key best xs

/-- The comparison report (lines 308-339), built from the sorted data. -/
def compare_report (fmtMonthYear : Int → String) (data : List CompareMetrics) : String :=
  match data with
  | [] => ""
  | first :: rest =>
    let lastM := rest.getLastD first
    let mostActive := pyMaxBy
      (fun m => match m.recent_activity with | .val n => n | .na => 0) first rest
    "🏆 *Competitive Programming Comparison*\n\n"
    ++ enumStrings (compare_user_block fmtMonthYear) 1 (first :: rest)
    ++ "🎯 *Final Verdict*: _" ++ first.handle ++ "_ leads with "
    ++ toString first.current_rating ++ " rating!\n\n"
    ++ "📊 *Key Insights*:\n"
    ++ "• Rating spread: " ++ toString (first.current_rating - lastM.current_rating)
    ++ " points\n"
    ++ (match mostActive.recent_activity with
        | .val n => "• Most active solver: _" ++ mostActive.handle ++ "_ ("
            ++ toString n ++ " recent ACs)\n"
        | .na => "")

/-- The plain text returned by the outer except of lines 341-342. -/
def comparisonFailedText (e : String) : String :=
  "❌ *Comparison failed*: " ++ e
  ++ "\n\nThis might be due to:\n• Network connectivity issues\n• Codeforces API being temporarily unavailable\n• Invalid handle formats\n\nPlease try again in a few moments."

/-- Handles whose lowercase form is not among the found users
(lines 260-261). -/
def missingHandles (handles : List String) (users : List User) : List String :=
  handles.filter (fun h => decide (pyLower h ∉ users.map (fun u => pyLower u.handle)))

def compare_codeforces_users_model (handles : List String)
    (uiE : Except String (List User))
    (rcF : String → Except String (List RatingChange))
    (stF : String → Except String (List Submission))
    (fmtMonthYear : Int → String) : ToolOutcome :=
  if handles.length < 2 then .ok "❌ Please provide at least 2 handles to compare."
  else
    match uiE with
    | .error e => .ok (comparisonFailedText e)
    | .ok users =>
      if missingHandles handles users ≠ [] then
        .ok ("❌ Could not find the following users: "
          ++ String.intercalate ", " (missingHandles handles users)
          ++ "\n\nPlease check if these handles exist on Codeforces.")
      else if users = [] then
        .ok "❌ No valid users found. Please check the handles and try again."
      else
        .ok (compare_report fmtMonthYear (compare_comparison_data users rcF stF))

-- ### graphing_tools.py

/-- The handle/handles parameter juggling of plot_rating_graph,
lines 48-56. -/
def plot_resolve (defaultHandle : String) (handles : Option (List String))
    (handle : Option String) : Option (List String) :=
  if optStrTruthy handle && !optListTruthy handles then some [handle.getD ""]
  else if optListTruthy handles then handles
  else if defaultHandle != "" then some [defaultHandle]
  else none

/-- The asyncio.gather over one fetch per handle: all results in input
order, or the first error in list order. -/
def gatherFetch {α : Type} (f : String → Except String α) : List String → Except String (List α)
  | [] => .ok []
  | h :: t =>
    match f h with
    | .error e => .error e
    | .ok v => (gatherFetch f t).map (fun vs => v :: vs)

/-- plot_rating_graph.  rcF is the per-handle rating-changes fetch; the
asyncio.gather of line 62 propagates the first error in list order.
The McpError 404 raised at line 65 is itself caught by the except of
line 89 and re-wrapped with code 500 (str(McpError) is its message). -/
def plot_rating_graph_model (defaultHandle : String) (handles : Option (List String))
    (handle : Option String)
    (rcF : String → Except String (List RatingChange)) : ToolOutcome :=
  match plot_resolve defaultHandle handles handle with
  | none => .err 400 "Please specify at least one handle (use \x27handle\x27 or \x27handles\x27 parameter)."
  | some targets =>
    match gatherFetch rcF targets with
    | .error e => .err 500 ("❌ Error plotting rating graph: " ++ e)
    | .ok allChanges =>
      if allChanges.all (fun cs => cs.isEmpty) then
        .err 500 ("❌ Error plotting rating graph: 😕 No rating changes found for any of the specified users.")
      else
        .image ("Here is the rating graph for " ++ String.intercalate ", " targets ++ ":")

/-- plot_performance_graph (lines 101-143); like plot_rating_graph, its
internal 404 is re-wrapped by its own except into a 500. -/
def plot_performance_graph_model (defaultHandle : String) (handle : Option String)
    (rcE : Except String (List RatingChange)) : ToolOutcome :=
  match resolve_handle defaultHandle handle with
  | none => .err 400 "Please specify a handle or set DEFAULT_HANDLE."
  | some target =>
    match rcE with
    | .error e => .err 500 ("❌ Error plotting performance graph: " ++ e)
    | .ok changes =>
      if changes = [] then
        .err 500 ("❌ Error plotting performance graph: 😕 No rating changes found for **"
          ++ target ++ "**. They might be unrated.")
      else .image ("Here is the performance graph for " ++ target ++ ":")

/-- Resolution with the extra strip() == "" check of lines 157 and 202. -/
def resolve_handle_strip (defaultHandle : String) (handle : Option String) : Option String :=
  match resolve_handle defaultHandle handle with
  | none => none
  | some t => if pyStrip t == "" then none else some t

/-- The dedup loop of plot_solved_rating_distribution, lines 162-170:
the ratings of distinct accepted rated problems, in first-seen order. -/
def solved_ratings_list (subs : List Submission) : List Int :=
  (newRatedPairs subs []).map Prod.snd

def plot_solved_rating_distribution_model (defaultHandle : String) (handle : Option String)
    (stE : Except String (List Submission)) : ToolOutcome :=
  match resolve_handle_strip defaultHandle handle with
  | none => .err 400 "Please specify a handle or set DEFAULT_HANDLE."
  | some target =>
    match stE with
    | .error e => .err 500 ("❌ Error plotting rating distribution: " ++ e)
    | .ok subs =>
      if solved_ratings_list subs = [] then
        .err 500 ("❌ Error plotting rating distribution: 😕 No rated problems solved by *"
          ++ target ++ "*.")
      else .image ("Here\x27s a histogram of solved problem ratings for " ++ target ++ ":")

/-- plot_verdict_distribution (lines 198-236); the pie-chart data is
abstracted, the branching on the fetch result is kept. -/
def plot_verdict_distribution_model (defaultHandle : String) (handle : Option String)
    (stE : Except String (List Submission)) : ToolOutcome :=
  match resolve_handle_strip defaultHandle handle with
  | none => .err 400 "Please specify a handle or set DEFAULT_HANDLE."
  | some target =>
    match stE with
    | .error e => .err 500 ("❌ Error plotting verdicts: " ++ e)
    | .ok subs =>
      if subs = [] then
        .err 500 ("❌ Error plotting verdicts: No submissions found for " ++ target ++ ".")
      else .image ("Here is the verdict distribution for " ++ target ++ ":")

-- ### leetcode_tools.py

/-- The question payload inside activeDailyCodingChallengeQuestion. -/
structure DailyQuestion where
  title : String
  difficulty : String
  link : String
  content : String
deriving DecidableEq

/-- get_leetcode_daily_problem (lines 40-63).  fww abstracts
format_for_whatsapp (regex-based HTML rewriting). -/
def get_leetcode_daily_problem_model (resultE : Except String (Option DailyQuestion))
    (fww : String → String) : ToolOutcome :=
  match resultE with
  | .error e => .err 500 ("❌ Error fetching LeetCode daily problem: " ++ e)
  | .ok none => .ok "😕 Could not fetch the LeetCode daily problem."
  | .ok (some q) =>
    .ok ("*Today\x27s LeetCode Daily Problem*\n\n*" ++ q.title ++ "* (" ++ q.difficulty
      ++ ")\nSolve it here: https://leetcode.com" ++ q.link ++ "\n\nProblem Description:\n"
      ++ fww q.content)

-- ### Upstream call structure (for the concurrency claims)

/-- One upstream endpoint invocation, with its arguments. -/
inductive Fetch where
  | userInfo (handles : List String)
  | userStatus (handle : String) (count : Option Int)
  | problemset
  | userRatingChanges (handle : String)
deriving DecidableEq

/-- The await structure of recommend_problems: first the user info
await of line 73, then the asyncio.gather of lines 82-85 issuing the
submission and problemset fetches together.  Each inner list is one
group of fetches in flight concurrently; groups run one after another. -/
def recommend_plan (h : String) : List (List Fetch) :=
  [[Fetch.userInfo [h]], [Fetch.userStatus h none, Fetch.problemset]]

/-- The await structure of plot_rating_graph: a single asyncio.gather
(line 62) carrying one rating-changes fetch per handle. -/
def plot_rating_graph_plan (handles : List String) : List (List Fetch) :=
  [handles.map Fetch.userRatingChanges]

/-- The await structure of compare_codeforces_users: the user info await
of line 257, then, per found user, the two sequential awaits of
lines 275-276 (each its own singleton group). -/
def compare_plan (handles foundHandles : List String) : List (List Fetch) :=
  [Fetch.userInfo handles]
    :: foundHandles.flatMap (fun h => [[Fetch.userRatingChanges h], [Fetch.userStatus h (some 50)]])

-- ### Concrete fixtures used by witnesses and counterexamples

def userW : User :=
  { handle := "t", rating := some 1450, maxRating := some 1500,
    rank := some "specialist", registrationTimeSeconds := some 0 }

def pW1 : Problem := { contestId := 1, index := "A", name := "Alpha", rating := some 1500 }

def pW2 : Problem := { contestId := 1, index := "B", name := "Beta", rating := some 1450 }

def pWlow : Problem := { contestId := 3, index := "C", name := "Low", rating := some 1000 }

def psetW : Problemset := { problems := [pW1, pW2] }

def psetLow : Problemset := { problems := [pWlow] }

-- ### Claim C8

theorem all_singleton_compare_steps (fh : List String) :
    (fh.flatMap (fun h => [[Fetch.userRatingChanges h], [Fetch.userStatus h (some 50)]])).all
      (fun step => step.length == 1) = true := by
  induction fh with
  | nil => rfl
  | cons h t ih => simp [List.flatMap_cons, List.all_append, ih]

/-- Claim C8 (amended): recommend_problems and plot_rating_graph issue
their independent upstream fetches inside one parallel gather group,
but compare_codeforces_users awaits every upstream call on its own:
every group of its plan holds exactly one fetch, so its two per-user
detail fetches run one after another. -/
theorem fanout_parallel_except_compare :
    (∀ h : String, ∃ step, step ∈ recommend_plan h
      ∧ Fetch.userStatus h none ∈ step ∧ Fetch.problemset ∈ step)
    ∧ (∀ handles : List String,
        plot_rating_graph_plan handles = [handles.map Fetch.userRatingChanges])
    ∧ (∀ handles foundHandles : List String,
        (compare_plan handles foundHandles).all (fun step => step.length == 1) = true) := by
  refine ⟨?_, ?_, ?_⟩
  · intro h
    exact ⟨[Fetch.userStatus h none, Fetch.problemset],
      by simp [recommend_plan], by simp, by simp⟩
  · intro handles
    rfl
  · intro handles foundHandles
    rw [compare_plan, List.all_cons]
    rw [all_singleton_compare_steps]
    rfl

/-- Claim C8 counterexample: in compare_codeforces_users the rating
changes fetch and the submissions fetch for the same user (two
independent upstream calls) never share a concurrent group: with
handles ["a", "b"] all found, no step of the plan holds both fetches
for "a", so they are awaited one after another. -/
theorem compare_sequential_awaits_counterexample :
    (compare_plan ["a", "b"] ["a", "b"]).all
      (fun step => !(decide (Fetch.userRatingChanges "a" ∈ step)
        && decide (Fetch.userStatus "a" (some 50) ∈ step))) = true := by
  decide

-- ### Claim C4

theorem candidatesE_ok_mem (solved : List String) (lo hi : Option Int) :
    ∀ (probs cs : List Problem), candidatesE solved lo hi probs = .ok cs →
      ∀ p, p ∈ cs →
        recProblemKey p ∉ solved
        ∧ ∃ r, p.rating = some r
          ∧ (∃ l0, lo = some l0 ∧ l0 ≤ r) ∧ (∃ h0, hi = some h0 ∧ r ≤ h0) := by
  intro probs
  induction probs with
  | nil =>
    intro cs hcs p hp
    rw [← Except.ok.inj hcs] at hp
    simp at hp
  | cons q ps ih =>
    intro cs hcs p hp
    unfold candidatesE at hcs
    by_cases h1 : recProblemKey q ∈ solved
    · rw [if_pos h1] at hcs; exact ih cs hcs p hp
    · rw [if_neg h1] at hcs
      cases hq : q.rating with
      | none => rw [hq] at hcs; exact ih cs hcs p hp
      | some r =>
        rw [hq] at hcs
        dsimp only at hcs
        cases hlo : lo with
        | none => rw [hlo] at hcs; dsimp only at hcs; exact absurd hcs (by simp)
        | some l =>
          rw [hlo] at hcs
          dsimp only at hcs
          by_cases h2 : l ≤ r
          · rw [if_pos h2] at hcs
            cases hhi : hi with
            | none => rw [hhi] at hcs; dsimp only at hcs; exact absurd hcs (by simp)
            | some hB =>
              rw [hhi] at hcs
              dsimp only at hcs
              by_cases h3 : r ≤ hB
              · rw [if_pos h3] at hcs
                cases hrec : candidatesE solved (some l) (some hB) ps with
                | error m => rw [hrec] at hcs; simp [Except.map] at hcs
                | ok cs2 =>
                  rw [hrec] at hcs
                  simp only [Except.map] at hcs
                  have hcs2 : q :: cs2 = cs := Except.ok.inj hcs
                  rw [← hcs2] at hp
                  rcases List.mem_cons.mp hp with rfl | hp2
                  · exact ⟨h1, r, hq, ⟨l, rfl, h2⟩, ⟨hB, rfl, h3⟩⟩
                  · have h4 := ih cs2 (by rw [hlo, hhi]; exact hrec) p hp2
                    rw [hlo, hhi] at h4
                    exact h4
              · rw [if_neg h3] at hcs
                have h4 := ih cs (by rw [hlo, hhi]; exact hcs) p hp
                rw [hlo, hhi] at h4
                exact h4
          · rw [if_neg h2] at hcs
            have h4 := ih cs (by rw [hlo]; exact hcs) p hp
            rw [hlo] at h4
            exact h4

theorem recommend_after_user_recs_inv (shuffle : List Problem → List Problem)
    (subs : List Submission) (pset : Problemset) (lo hi : Option Int) (count : Int)
    (ps : List Problem) (lo2 hi2 : Option Int)
    (h : recommend_after_user shuffle (.ok subs) (.ok pset) lo hi count
      = .recs ps lo2 hi2) :
    lo2 = lo ∧ hi2 = hi
    ∧ ∃ c cs, candidatesE (solved_ids subs) lo hi pset.problems = .ok (c :: cs)
      ∧ ps = pySliceTo count (shuffle (c :: cs)) := by
  unfold recommend_after_user at h
  dsimp only at h
  cases hcand : candidatesE (solved_ids subs) lo hi pset.problems with
  | error m => rw [hcand] at h; simp at h
  | ok cands =>
    rw [hcand] at h
    cases cands with
    | nil => simp at h
    | cons c cs =>
      dsimp only at h
      have h2 := RecResult.recs.inj h
      exact ⟨h2.2.1.symm, h2.2.2.symm, c, cs, rfl, h2.1.symm⟩

/-- Claim C4 (amended): every problem recommended by recommend_problems
is unsolved (its key is not in the solved-set), carries a rating, and
that rating lies inside the chosen window; when count is nonnegative at
most count problems are returned.  (With a negative count the Python
slice candidates[:count] instead keeps all but the last abs(count)
shuffled candidates, which can exceed count.) -/
theorem recommend_results_unsolved_rated_in_window
    (shuffle : List Problem → List Problem) (uiE : Except String (List User))
    (subs : List Submission) (pset : Problemset) (minRating maxRating : Option Int)
    (count : Int) (ps : List Problem) (lo hi : Option Int) (p : Problem)
    (hsh : ∀ l, (shuffle l).Perm l)
    (hrec : recommend_core shuffle uiE (.ok subs) (.ok pset) minRating maxRating count
      = .recs ps lo hi)
    (hp : p ∈ ps) (hcount : 0 ≤ count) :
    (recProblemKey p ∉ solved_ids subs
      ∧ ∃ r, p.rating = some r
        ∧ (∃ l0, lo = some l0 ∧ l0 ≤ r) ∧ (∃ h0, hi = some h0 ∧ r ≤ h0))
    ∧ (ps.length : Int) ≤ count := by
  unfold recommend_core at hrec
  cases uiE with
  | error e => simp at hrec
  | ok users =>
    cases users with
    | nil => simp at hrec
    | cons u rest =>
      dsimp only at hrec
      obtain ⟨hlo, hhi, c, cs, hcand, hps⟩ :=
        recommend_after_user_recs_inv shuffle subs pset _ _ count ps lo hi hrec
      have hmem : p ∈ shuffle (c :: cs) := by
        rw [hps] at hp
        unfold pySliceTo at hp
        rw [if_pos hcount] at hp
        exact List.take_subset _ _ hp
      have hmem2 : p ∈ c :: cs := (hsh (c :: cs)).mem_iff.mp hmem
      have hprop := candidatesE_ok_mem (solved_ids subs) _ _ pset.problems (c :: cs) hcand p hmem2
      rw [← hlo, ← hhi] at hprop
      refine ⟨hprop, ?_⟩
      rw [hps]
      unfold pySliceTo
      rw [if_pos hcount]
      have hlen : (List.take count.toNat (shuffle (c :: cs))).length ≤ count.toNat := by
        rw [List.length_take]
        exact Nat.min_le_left _ _
      calc ((List.take count.toNat (shuffle (c :: cs))).length : Int)
          ≤ (count.toNat : Int) := by exact_mod_cast hlen
        _ = count := Int.toNat_of_nonneg hcount

/-- Witness for claim C4: a concrete run with two in-window unsolved
problems and count 5 returns both, and the first returned problem is
unsolved, rated 1500 and inside [1400, 1600]. -/
theorem recommend_results_unsolved_rated_in_window_witness :
    (recProblemKey pW1 ∉ solved_ids []
      ∧ ∃ r, pW1.rating = some r
        ∧ (∃ l0, (some (1400 : Int)) = some l0 ∧ l0 ≤ r)
        ∧ (∃ h0, (some (1600 : Int)) = some h0 ∧ r ≤ h0))
    ∧ (([pW1, pW2] : List Problem).length : Int) ≤ 5 :=
  recommend_results_unsolved_rated_in_window (fun l => l) (.ok [userW]) [] psetW
    (some 1400) (some 1600) 5 [pW1, pW2] (some 1400) (some 1600) pW1
    (fun l => List.Perm.refl l) (by decide) (by decide) (by decide)

/-- Claim C4 counterexample: with count = -1 and two candidates the tool
returns one problem, and 1 is not at most -1: the cardinality clause of
the claim fails for a negative count. -/
theorem recommend_negative_count_counterexample :
    recommend_core (fun l => l) (.ok [userW]) (.ok []) (.ok psetW)
      (some 1400) (some 1600) (-1)
      = RecResult.recs [pW1] (some 1400) (some 1600)
    ∧ ¬ ((([pW1] : List Problem).length : Int) ≤ -1) := by
  constructor
  · decide
  · decide

-- ### Claim C9

theorem candidatesE_one_none_ok_nil (solved : List String) (lo hi : Option Int)
    (hone : lo = none ∨ hi = none) :
    ∀ (probs cs : List Problem), candidatesE solved lo hi probs = .ok cs → cs = [] := by
  intro probs
  induction probs with
  | nil =>
    intro cs h
    exact (Except.ok.inj h).symm
  | cons q ps ih =>
    intro cs h
    unfold candidatesE at h
    by_cases h1 : recProblemKey q ∈ solved
    · rw [if_pos h1] at h; exact ih cs h
    · rw [if_neg h1] at h
      cases hq : q.rating with
      | none => rw [hq] at h; exact ih cs h
      | some r =>
        rw [hq] at h
        dsimp only at h
        rcases hone with hlo | hhi
        · rw [hlo] at h
          dsimp only at h
          exact absurd h (by simp)
        · cases hlo2 : lo with
          | none =>
            rw [hlo2] at h
            dsimp only at h
            exact absurd h (by simp)
          | some l =>
            rw [hlo2] at h
            dsimp only at h
            by_cases h2 : l ≤ r
            · rw [if_pos h2, hhi] at h
              dsimp only at h
              exact absurd h (by simp)
            · rw [if_neg h2] at h
              have h3 := ih cs (by rw [hlo2]; exact h)
              exact h3

theorem candidatesE_trigger_error (solved : List String) (lo hi : Option Int) (r : Int)
    (hwin : lo = none ∨ (hi = none ∧ ∃ l0, lo = some l0 ∧ l0 ≤ r)) :
    ∀ (probs : List Problem) (p : Problem), p ∈ probs →
      recProblemKey p ∉ solved → p.rating = some r →
      ∃ m, candidatesE solved lo hi probs = .error m := by
  intro probs
  induction probs with
  | nil => intro p hp; simp at hp
  | cons q ps ih =>
    intro p hp hkey hr
    unfold candidatesE
    by_cases h1 : recProblemKey q ∈ solved
    · rw [if_pos h1]
      rcases List.mem_cons.mp hp with rfl | hp2
      · exact absurd h1 hkey
      · exact ih p hp2 hkey hr
    · rw [if_neg h1]
      cases hq : q.rating with
      | none =>
        dsimp only
        rcases List.mem_cons.mp hp with rfl | hp2
        · rw [hq] at hr; exact absurd hr (by simp)
        · exact ih p hp2 hkey hr
      | some rq =>
        dsimp only
        rcases hwin with hlo | ⟨hhi, l0, hlo, hle⟩
        · rw [hlo]
          dsimp only
          exact ⟨cmpNoneLeftMsg, rfl⟩
        · rw [hlo]
          dsimp only
          by_cases h2 : l0 ≤ rq
          · rw [if_pos h2, hhi]
            dsimp only
            exact ⟨cmpNoneRightMsg, rfl⟩
          · rw [if_neg h2]
            rcases List.mem_cons.mp hp with rfl | hp2
            · rw [hq] at hr
              have hrr : rq = r := Option.some.inj hr
              exact absurd (hrr ▸ hle) h2
            · have h3 := ih p hp2 hkey hr
              rw [hlo] at h3
              exact h3

/-- Claim C9 (amended): if recommend_problems is called with exactly one
of min_rating and max_rating provided, the default-window step is
skipped and the window comparison faces None, so the body can never
produce a recommendation list; whenever the user is found and some
unsolved rated problem reaches the None comparison (always, when
min_rating is the missing one; only for a problem with rating at least
min_rating when max_rating is missing) the body raises the TypeError,
which the tool wraps into the 500 error response.  Otherwise the
no-candidates (or user-not-found) text is returned instead of an error
response. -/
theorem recommend_one_none_never_recommends
    (shuffle : List Problem → List Problem)
    (uiE : Except String (List User)) (stE : Except String (List Submission))
    (psE : Except String Problemset) (minRating maxRating : Option Int) (count : Int)
    (ps : List Problem) (lo hi : Option Int) (u : User) (users : List User)
    (subs : List Submission) (pset : Problemset) (p : Problem) (r : Int)
    (hone : minRating.isNone ≠ maxRating.isNone) :
    recommend_core shuffle uiE stE psE minRating maxRating count ≠ .recs ps lo hi
    ∧ (uiE = .ok (u :: users) → stE = .ok subs → psE = .ok pset →
        p ∈ pset.problems → recProblemKey p ∉ solved_ids subs → p.rating = some r →
        (minRating = none ∨ (maxRating = none ∧ ∃ l0, minRating = some l0 ∧ l0 ≤ r)) →
        (recommend_core shuffle uiE stE psE minRating maxRating count).isExc = true) := by
  have hcond : (minRating.isNone && maxRating.isNone) = false := by
    cases hm : minRating.isNone
    · simp
    · cases hx : maxRating.isNone
      · simp
      · rw [hm, hx] at hone; exact absurd rfl hone
  have hone2 : minRating = none ∨ maxRating = none := by
    cases hm : minRating with
    | none => exact Or.inl rfl
    | some v =>
      cases hx : maxRating with
      | none => exact Or.inr rfl
      | some w =>
        rw [hm, hx] at hone
        simp at hone
  have hcondP : ¬((minRating.isNone && maxRating.isNone) = true) := by
    rw [hcond]; simp
  constructor
  · unfold recommend_core
    cases uiE with
    | error e => simp
    | ok users2 =>
      cases users2 with
      | nil => simp
      | cons u2 rest =>
        dsimp only
        rw [if_neg hcondP, if_neg hcondP]
        unfold recommend_after_user
        cases stE with
        | error e => simp
        | ok subs2 =>
          cases psE with
          | error e => simp
          | ok pset2 =>
            dsimp only
            cases hcand : candidatesE (solved_ids subs2) minRating maxRating pset2.problems with
            | error m => simp
            | ok cands =>
              have hnil := candidatesE_one_none_ok_nil (solved_ids subs2) minRating maxRating
                hone2 pset2.problems cands hcand
              subst hnil
              simp
  · intro hui hst hps hp hkey hr hwin
    subst hui hst hps
    unfold recommend_core
    dsimp only
    rw [if_neg hcondP, if_neg hcondP]
    unfold recommend_after_user
    dsimp only
    have hwin2 : minRating = none ∨ (maxRating = none ∧ ∃ l0, minRating = some l0 ∧ l0 ≤ r) := hwin
    obtain ⟨m, hm⟩ := candidatesE_trigger_error (solved_ids subs) minRating maxRating r
      hwin2 pset.problems p hp hkey hr
    rw [hm]
    rfl

/-- Witness for claim C9: with min_rating missing and max_rating 1600,
a found user and one unsolved rated problem, the body raises (the tool
answers 500) and in particular no recommendation list is produced. -/
theorem recommend_one_none_never_recommends_witness :
    recommend_core (fun l => l) (.ok [userW]) (.ok []) (.ok psetW) none (some 1600) 5
      ≠ RecResult.recs [] none none
    ∧ (recommend_core (fun l => l) (.ok [userW]) (.ok []) (.ok psetW)
        none (some 1600) 5).isExc = true := by
  have h := recommend_one_none_never_recommends (fun l => l) (.ok [userW]) (.ok [])
    (.ok psetW) none (some 1600) 5 [] none none userW [] [] psetW pW1 1500 (by decide)
  exact ⟨h.1, h.2 rfl rfl rfl (by decide) (by decide) (by decide) (Or.inl rfl)⟩

/-- Claim C9 counterexample: with min_rating 1500 given, max_rating
missing, a found user and a problemset whose only problem is rated 1000
(below min_rating, so the chained comparison short-circuits before
reaching None), the call returns the no-candidates message with code
path ok, not a wrapped 500 error response. -/
theorem recommend_one_none_no_500_counterexample :
    recommend_problems_model "" (some "t") (fun l => l) (.ok [userW]) (.ok [])
      (.ok psetLow) (some 1500) none 5
      = ToolOutcome.ok "😕 Couldn\x27t find any suitable unsolved problems for *t* in rating range 1500-None."
    ∧ (recommend_problems_model "" (some "t") (fun l => l) (.ok [userW]) (.ok [])
        (.ok psetLow) (some 1500) none 5).isErr = false := by
  constructor
  · decide
  · decide

-- ### Claim C3

/-- Claim C3 counterexample: when the user-info fetch inside
compare_codeforces_users raises, the outer except (lines 341-342)
returns the failure description as an ordinary text result, not an
error response carrying a status code, so the wrapping policy is not
uniform across all tools. -/
theorem compare_failure_is_plain_text_counterexample :
    compare_codeforces_users_model ["a", "b"] (.error "boom") (fun _ => .ok [])
      (fun _ => .ok []) (fun _ => "")
      = ToolOutcome.ok (comparisonFailedText "boom")
    ∧ (compare_codeforces_users_model ["a", "b"] (.error "boom") (fun _ => .ok [])
        (fun _ => .ok []) (fun _ => "")).isErr = false := by
  constructor
  · decide
  · decide

/-- Claim C3 (amended): every try/except tool except
compare_codeforces_users converts any exception reaching its handler
(from the network call or from the transformation, as in the
recommend_core bridge below) into an McpError response with status code
500 and a prefixed human-readable message; compare_codeforces_users
instead returns the failure description as ordinary text without a
status code.  Tools with no handler (the stubs and static-text tools)
make no network call. -/
theorem error_wrapping_uniform_except_compare :
    (∀ (dflt : String) (handles : Option (List String)) (e : String) (fmt : Int → String),
      ((stats_target_handles dflt handles).headD "" == "") = false →
      get_codeforces_user_stats_model dflt handles (.error e) fmt
        = .err 500 ("Error fetching user stats: " ++ e))
    ∧ (∀ (dflt : String) (handle : Option String) (target : String)
        (shuffle : List Problem → List Problem) (uiE : Except String (List User))
        (stE : Except String (List Submission)) (psE : Except String Problemset)
        (minR maxR : Option Int) (count : Int) (m : String),
      resolve_handle dflt handle = some target →
      recommend_core shuffle uiE stE psE minR maxR count = .exc m →
      recommend_problems_model dflt handle shuffle uiE stE psE minR maxR count
        = .err 500 ("Error generating recommendations: " ++ m))
    ∧ (∀ (shuffle : List Problem → List Problem) (e : String)
        (stE : Except String (List Submission)) (psE : Except String Problemset)
        (minR maxR : Option Int) (count : Int),
      recommend_core shuffle (.error e) stE psE minR maxR count = .exc e)
    ∧ (∀ (shuffle : List Problem → List Problem) (u : User) (us : List User) (e : String)
        (psE : Except String Problemset) (minR maxR : Option Int) (count : Int),
      recommend_core shuffle (.ok (u :: us)) (.error e) psE minR maxR count = .exc e)
    ∧ (∀ (shuffle : List Problem → List Problem) (u : User) (us : List User)
        (subs : List Submission) (e : String) (minR maxR : Option Int) (count : Int),
      recommend_core shuffle (.ok (u :: us)) (.ok subs) (.error e) minR maxR count = .exc e)
    ∧ (∀ (dflt : String) (handle : Option String) (target : String) (e : String)
        (count : Int) (fmtd : Int → String),
      resolve_handle dflt handle = some target →
      get_solved_problems_model dflt handle (.error e) count fmtd
        = .err 500 ("Error fetching solved problems: " ++ e))
    ∧ (∀ (dflt : String) (handle : Option String) (target : String) (e : String)
        (count : Int),
      resolve_handle dflt handle = some target →
      get_rating_changes_model dflt handle (.error e) count
        = .err 500 ("Error fetching rating changes: " ++ e))
    ∧ (∀ (dflt : String) (handle : Option String) (target : String) (e : String)
        (binSize : Int) (barLen : Nat → Nat → Nat),
      resolve_handle dflt handle = some target →
      get_solved_rating_histogram_model dflt handle (.error e) binSize barLen
        = .err 500 ("Error generating histogram: " ++ e))
    ∧ (∀ (e : String) (fww : String → String),
      get_leetcode_daily_problem_model (.error e) fww
        = .err 500 ("❌ Error fetching LeetCode daily problem: " ++ e))
    ∧ (∀ (dflt : String) (handles : Option (List String)) (handle : Option String)
        (t0 : String) (ts : List String) (e : String)
        (rcF : String → Except String (List RatingChange)),
      plot_resolve dflt handles handle = some (t0 :: ts) →
      rcF t0 = .error e →
      plot_rating_graph_model dflt handles handle rcF
        = .err 500 ("❌ Error plotting rating graph: " ++ e))
    ∧ (∀ (dflt : String) (handle : Option String) (target : String) (e : String),
      resolve_handle dflt handle = some target →
      plot_performance_graph_model dflt handle (.error e)
        = .err 500 ("❌ Error plotting performance graph: " ++ e))
    ∧ (∀ (dflt : String) (handle : Option String) (target : String) (e : String),
      resolve_handle_strip dflt handle = some target →
      plot_solved_rating_distribution_model dflt handle (.error e)
        = .err 500 ("❌ Error plotting rating distribution: " ++ e))
    ∧ (∀ (dflt : String) (handle : Option String) (target : String) (e : String),
      resolve_handle_strip dflt handle = some target →
      plot_verdict_distribution_model dflt handle (.error e)
        = .err 500 ("❌ Error plotting verdicts: " ++ e))
    ∧ (∀ (hs : List String) (e : String)
        (rcF : String → Except String (List RatingChange))
        (stF : String → Except String (List Submission)) (fmt : Int → String),
      2 ≤ hs.length →
      compare_codeforces_users_model hs (.error e) rcF stF fmt
        = .ok (comparisonFailedText e)) := by
  refine ⟨?_, ?_, ?_, ?_, ?_, ?_, ?_, ?_, ?_, ?_, ?_, ?_, ?_, ?_⟩
  · intro dflt handles e fmt h
    unfold get_codeforces_user_stats_model
    simp only [h]
    rfl
  · intro dflt handle target shuffle uiE stE psE minR maxR count m hres hcore
    unfold recommend_problems_model
    rw [hres]
    dsimp only
    rw [hcore]
  · intro shuffle e stE psE minR maxR count
    rfl
  · intro shuffle u us e psE minR maxR count
    cases psE <;> rfl
  · intro shuffle u us subs e minR maxR count
    rfl
  · intro dflt handle target e count fmtd hres
    unfold get_solved_problems_model
    rw [hres]
  · intro dflt handle target e count hres
    unfold get_rating_changes_model
    rw [hres]
  · intro dflt handle target e binSize barLen hres
    unfold get_solved_rating_histogram_model
    rw [hres]
  · intro e fww
    rfl
  · intro dflt handles handle t0 ts e rcF hres hrc
    unfold plot_rating_graph_model
    rw [hres]
    dsimp only
    have hg : gatherFetch rcF (t0 :: ts) = .error e := by
      unfold gatherFetch
      rw [hrc]
    rw [hg]
  · intro dflt handle target e hres
    unfold plot_performance_graph_model
    rw [hres]
  · intro dflt handle target e hres
    unfold plot_solved_rating_distribution_model
    rw [hres]
  · intro dflt handle target e hres
    unfold plot_verdict_distribution_model
    rw [hres]
  · intro hs e rcF stF fmt h2
    unfold compare_codeforces_users_model
    rw [if_neg (not_lt.mpr h2)]

/-- Witness for claim C3: each hypothesis-carrying conjunct applied at
a concrete input. -/
theorem error_wrapping_uniform_except_compare_witness :
    get_codeforces_user_stats_model "d" none (.error "x") (fun _ => "")
      = ToolOutcome.err 500 ("Error fetching user stats: " ++ "x")
    ∧ recommend_problems_model "d" none (fun l => l) (.error "x") (.ok [])
        (.ok { problems := [] }) none none 5
      = ToolOutcome.err 500 ("Error generating recommendations: " ++ "x")
    ∧ get_solved_problems_model "d" none (.error "x") 10 (fun _ => "")
      = ToolOutcome.err 500 ("Error fetching solved problems: " ++ "x")
    ∧ get_rating_changes_model "d" none (.error "x") 5
      = ToolOutcome.err 500 ("Error fetching rating changes: " ++ "x")
    ∧ get_solved_rating_histogram_model "d" none (.error "x") 100 (fun _ _ => 0)
      = ToolOutcome.err 500 ("Error generating histogram: " ++ "x")
    ∧ plot_rating_graph_model "d" none none (fun _ => .error "x")
      = ToolOutcome.err 500 ("❌ Error plotting rating graph: " ++ "x")
    ∧ plot_performance_graph_model "d" none (.error "x")
      = ToolOutcome.err 500 ("❌ Error plotting performance graph: " ++ "x")
    ∧ plot_solved_rating_distribution_model "d" none (.error "x")
      = ToolOutcome.err 500 ("❌ Error plotting rating distribution: " ++ "x")
    ∧ plot_verdict_distribution_model "d" none (.error "x")
      = ToolOutcome.err 500 ("❌ Error plotting verdicts: " ++ "x")
    ∧ compare_codeforces_users_model ["a", "b"] (.error "x") (fun _ => .ok [])
        (fun _ => .ok []) (fun _ => "")
      = ToolOutcome.ok (comparisonFailedText "x") := by
  obtain ⟨h1, h2, _, _, _, h6, h7, h8, _, h10, h11, h12, h13, h14⟩ :=
    error_wrapping_uniform_except_compare
  refine ⟨?_, ?_, ?_, ?_, ?_, ?_, ?_, ?_, ?_, ?_⟩
  · exact h1 "d" none "x" (fun _ => "") (by decide)
  · exact h2 "d" none "d" (fun l => l) (.error "x") (.ok []) (.ok { problems := [] })
      none none 5 "x" (by decide) rfl
  · exact h6 "d" none "d" "x" 10 (fun _ => "") (by decide)
  · exact h7 "d" none "d" "x" 5 (by decide)
  · exact h8 "d" none "d" "x" 100 (fun _ _ => 0) (by decide)
  · exact h10 "d" none none "d" [] "x" (fun _ => .error "x") (by decide) rfl
  · exact h11 "d" none "d" "x" (by decide)
  · exact h12 "d" none "d" "x" (by decide)
  · exact h13 "d" none "d" "x" (by decide)
  · exact h14 ["a", "b"] "x" (fun _ => .ok []) (fun _ => .ok []) (fun _ => "") (by decide)

-- ### Claim C5

/-- True exactly on a successful fetch result. -/
def exceptOk {ε α : Type} : Except ε α → Bool
  | .ok _ => true
  | .error _ => false

def userA : User :=
  { handle := "a", rating := some 2000, maxRating := some 2100,
    rank := some "candidate master", registrationTimeSeconds := some 0 }

def userB : User :=
  { handle := "b", rating := some 1500, maxRating := some 1600,
    rank := some "specialist", registrationTimeSeconds := some 0 }

def rcW : RatingChange :=
  { contestId := 1, contestName := "Round 1", rank := 10, oldRating := 1400,
    newRating := 1500, ratingUpdateTimeSeconds := 100 }

/-- A rating-changes fetch that succeeds for "a" and raises for "b". -/
def rcFW : String → Except String (List RatingChange) :=
  fun h => if h = "a" then .ok [rcW, rcW, rcW] else .error "down"

def stFW : String → Except String (List Submission) :=
  fun _ => .ok []

/-- Claim C5 counterexample: with both users found but the rating
changes fetch failing for "b", compare_codeforces_users returns a
non-error (ok) result whose comparison data mixes real metrics from the
successful upstream calls for "a" with N/A fallbacks for "b": a partial
result, not a single error response. -/
theorem compare_partial_result_counterexample :
    (compare_codeforces_users_model ["a", "b"] (.ok [userA, userB]) rcFW stFW
      (fun _ => "Jan 2020")).isErr = false
    ∧ ([userA, userB].map (compare_user_metrics rcFW stFW)).map
        (fun m => m.contests_count) = [PyCount.val 3, PyCount.na]
    ∧ compare_user_metrics rcFW stFW userB = compare_na_metrics userB := by
  refine ⟨?_, ?_, ?_⟩ <;> decide

theorem gatherFetch_error {α : Type} (f : String → Except String α) :
    ∀ (l : List String) (t : String) (e : String), t ∈ l → f t = .error e →
      ∃ m, gatherFetch f l = .error m := by
  intro l
  induction l with
  | nil => intro t e ht; simp at ht
  | cons a rest ih =>
    intro t e ht hf
    unfold gatherFetch
    cases ha : f a with
    | error e2 => exact ⟨e2, rfl⟩
    | ok v =>
      dsimp only
      rcases List.mem_cons.mp ht with rfl | ht2
      · rw [ha] at hf; exact absurd hf (by simp)
      · obtain ⟨m, hm⟩ := ih t e ht2 hf
        rw [hm]
        exact ⟨m, rfl⟩

theorem flatten_flatMap_pairs (us : List String) :
    (us.flatMap (fun h => [[Fetch.userRatingChanges h], [Fetch.userStatus h (some 50)]])).flatten
    = us.flatMap (fun h => [Fetch.userRatingChanges h, Fetch.userStatus h (some 50)]) := by
  induction us with
  | nil => rfl
  | cons u t ih =>
    rw [List.flatMap_cons, List.flatten_append, ih]
    rfl

theorem compare_plan_join (hs : List String) (us : List String) :
    (compare_plan hs us).flatten
    = Fetch.userInfo hs
      :: us.flatMap (fun h => [Fetch.userRatingChanges h, Fetch.userStatus h (some 50)]) := by
  rw [compare_plan, List.flatten_cons, flatten_flatMap_pairs]
  rfl

theorem nodup_flatMap_rcst (us : List String) (h : us.Nodup) :
    (us.flatMap (fun u => [Fetch.userRatingChanges u, Fetch.userStatus u (some 50)])).Nodup := by
  induction us with
  | nil => simp
  | cons u t ih =>
    rw [List.flatMap_cons]
    rw [List.nodup_cons] at h
    refine List.Nodup.append (by simp) (ih h.2) ?_
    intro x hx hx2
    rcases List.mem_flatMap.mp hx2 with ⟨v, hv, hxv⟩
    simp only [List.mem_cons, List.mem_singleton, List.not_mem_nil, or_false] at hx hxv
    rcases hx with rfl | rfl
    · rcases hxv with h1 | h1
      · have : u = v := Fetch.userRatingChanges.inj h1
        exact h.1 (this ▸ hv)
      · simp at h1
    · rcases hxv with h1 | h1
      · simp at h1
      · have : u = v := (Fetch.userStatus.inj h1).1
        exact h.1 (this ▸ hv)

/-- Claim C5 (amended): no tool retries a fetch (each upstream endpoint
occurs at most once in every call plan, given distinct handles), and
every tool except compare_codeforces_users turns an upstream failure
into a single error response even when the other fetches succeeded;
compare_codeforces_users instead recovers from per-user detail-fetch
failures, substituting the N/A metrics and returning a partial
comparison, and indeed never produces an error response at all. -/
theorem no_retries_single_error_except_compare :
    (∀ h : String, (recommend_plan h).flatten.Nodup)
    ∧ (∀ hs : List String, hs.Nodup → (plot_rating_graph_plan hs).flatten.Nodup)
    ∧ (∀ hs us : List String, us.Nodup → (compare_plan hs us).flatten.Nodup)
    ∧ (∀ (hs : List String) (uiE : Except String (List User))
        (rcF : String → Except String (List RatingChange))
        (stF : String → Except String (List Submission)) (fmt : Int → String),
      (compare_codeforces_users_model hs uiE rcF stF fmt).isErr = false)
    ∧ (∀ (rcF : String → Except String (List RatingChange))
        (stF : String → Except String (List Submission)) (u : User),
      exceptOk (rcF u.handle) = false ∨ exceptOk (stF u.handle) = false →
      compare_user_metrics rcF stF u = compare_na_metrics u)
    ∧ (∀ (dflt : String) (handle : Option String) (target : String)
        (shuffle : List Problem → List Problem) (u : User) (us : List User) (e : String)
        (psE : Except String Problemset) (minR maxR : Option Int) (count : Int),
      resolve_handle dflt handle = some target →
      recommend_problems_model dflt handle shuffle (.ok (u :: us)) (.error e) psE
        minR maxR count
        = .err 500 ("Error generating recommendations: " ++ e))
    ∧ (∀ (dflt : String) (handle : Option String) (target : String)
        (shuffle : List Problem → List Problem) (u : User) (us : List User)
        (subs : List Submission) (e : String) (minR maxR : Option Int) (count : Int),
      resolve_handle dflt handle = some target →
      recommend_problems_model dflt handle shuffle (.ok (u :: us)) (.ok subs) (.error e)
        minR maxR count
        = .err 500 ("Error generating recommendations: " ++ e))
    ∧ (∀ (dflt : String) (handles : Option (List String)) (handle : Option String)
        (targets : List String) (rcF : String → Except String (List RatingChange))
        (t e : String),
      plot_resolve dflt handles handle = some targets →
      t ∈ targets → rcF t = .error e →
      (plot_rating_graph_model dflt handles handle rcF).isErr = true) := by
  refine ⟨?_, ?_, ?_, ?_, ?_, ?_, ?_, ?_⟩
  · intro h
    simp [recommend_plan]
  · intro hs hnd
    have hinj : Function.Injective Fetch.userRatingChanges :=
      fun a b hab => Fetch.userRatingChanges.inj hab
    simpa [plot_rating_graph_plan] using hnd.map hinj
  · intro hs us hnd
    rw [compare_plan_join, List.nodup_cons]
    refine ⟨?_, nodup_flatMap_rcst us hnd⟩
    intro hmem
    rcases List.mem_flatMap.mp hmem with ⟨v, _, hxv⟩
    simp at hxv
  · intro hs uiE rcF stF fmt
    unfold compare_codeforces_users_model
    by_cases h1 : hs.length < 2
    · rw [if_pos h1]; rfl
    · rw [if_neg h1]
      cases uiE with
      | error e => rfl
      | ok users =>
        dsimp only
        by_cases h2 : missingHandles hs users ≠ []
        · rw [if_pos h2]; rfl
        · rw [if_neg h2]
          by_cases h3 : users = []
          · rw [if_pos h3]; rfl
          · rw [if_neg h3]; rfl
  · intro rcF stF u hfail
    unfold compare_user_metrics
    cases h1 : rcF u.handle with
    | error e => cases h2 : stF u.handle <;> rfl
    | ok rcs =>
      cases h2 : stF u.handle with
      | error e => rfl
      | ok subs =>
        exfalso
        rcases hfail with hf | hf
        · rw [h1] at hf; simp [exceptOk] at hf
        · rw [h2] at hf; simp [exceptOk] at hf
  · intro dflt handle target shuffle u us e psE minR maxR count hres
    have hcore : recommend_core shuffle (.ok (u :: us)) (.error e) psE minR maxR count
        = .exc e := by cases psE <;> rfl
    unfold recommend_problems_model
    rw [hres]
    dsimp only
    rw [hcore]
  · intro dflt handle target shuffle u us subs e minR maxR count hres
    have hcore : recommend_core shuffle (.ok (u :: us)) (.ok subs) (.error e)
        minR maxR count = .exc e := rfl
    unfold recommend_problems_model
    rw [hres]
    dsimp only
    rw [hcore]
  · intro dflt handles handle targets rcF t e hres ht hrc
    unfold plot_rating_graph_model
    rw [hres]
    dsimp only
    obtain ⟨m, hm⟩ := gatherFetch_error rcF targets t e ht hrc
    rw [hm]
    rfl

/-- Witness for claim C5: the hypothesis-carrying conjuncts applied at
concrete inputs. -/
theorem no_retries_single_error_except_compare_witness :
    (plot_rating_graph_plan ["a", "b"]).flatten.Nodup
    ∧ (compare_plan ["a", "b"] ["a", "b"]).flatten.Nodup
    ∧ compare_user_metrics rcFW stFW userB = compare_na_metrics userB
    ∧ recommend_problems_model "d" none (fun l => l) (.ok [userW]) (.error "x")
        (.ok { problems := [] }) none none 5
      = ToolOutcome.err 500 ("Error generating recommendations: " ++ "x")
    ∧ recommend_problems_model "d" none (fun l => l) (.ok [userW]) (.ok [])
        (.error "x") none none 5
      = ToolOutcome.err 500 ("Error generating recommendations: " ++ "x")
    ∧ (plot_rating_graph_model "d" (some ["a", "b"]) none rcFW).isErr = true := by
  obtain ⟨_, h2, h3, _, h5, h6, h7, h8⟩ := no_retries_single_error_except_compare
  refine ⟨?_, ?_, ?_, ?_, ?_, ?_⟩
  · exact h2 ["a", "b"] (by decide)
  · exact h3 ["a", "b"] ["a", "b"] (by decide)
  · exact h5 rcFW stFW userB (Or.inl (by decide))
  · exact h6 "d" none "d" (fun l => l) userW [] "x" (.ok { problems := [] })
      none none 5 (by decide)
  · exact h7 "d" none "d" (fun l => l) userW [] [] "x" none none 5 (by decide)
  · exact h8 "d" (some ["a", "b"]) none ["a", "b"] rcFW "b" "down" (by decide)
      (by decide) rfl
